import Mathlib

/-!
# Verification of the video-subtitle-scraper job-queue engine

A shallow embedding of the queue-management core of the
`video-subtitle-scraper` repository (`backend/src/utils/queue_manager.py`,
`backend/src/utils/error_handler.py`, `backend/src/utils/yt_dlp_helper.py`,
`backend/src/api/videos.py`, `backend/src/api/jobs.py`) together with
theorems settling the specification claims about claiming, releasing,
retrying, recovery, reconciliation and error classification.

The database is modelled as explicit state: lists of rows for the
`videos`, `subtitles` and `logs` tables plus the optional singleton
`settings` row.  SQL `UPDATE ... WHERE` statements become list maps
guarded by the `WHERE` predicate; an ORM mutation of the object returned
by `query(...).first()` becomes an update of the first matching list
element.  Wall-clock time (`datetime.utcnow()` / `CURRENT_TIMESTAMP`) is
threaded in as an explicit `now : Nat` parameter.  `attempts` and the
settings fields are SQLite signed integers, modelled as `Int` (and `Rat`
for the float-valued `backoff_factor`, whose only program use here is
order comparison against decimal literals).
-/

/-- A row of the `videos` table (`db/models.py`, class `Video`). -/
structure Video where
  id : Nat
  channel_id : Nat
  url : String
  title : Option String
  status : String
  attempts : Int
  last_error : Option String
  completed_at : Option Nat
  created_at : Nat
deriving DecidableEq

/-- A row of the `subtitles` table (`db/models.py`, class `Subtitle`). -/
structure Subtitle where
  id : Nat
  video_id : Nat
  language : String
  content : String
deriving DecidableEq

/-- A row of the `logs` table (`db/models.py`, class `Log`). -/
structure LogRow where
  video_id : Option Nat
  level : String
  message : String
  timestamp : Nat
deriving DecidableEq

/-- The singleton `settings` row (`db/models.py`, class `Setting`). -/
structure Setting where
  max_workers : Int
  max_retries : Int
  backoff_factor : Rat
  output_dir : String
deriving DecidableEq

/-- Column defaults of `Setting` (`db/models.py` lines 79-82). -/
def Setting.defaults : Setting :=
  { max_workers := 5, max_retries := 3, backoff_factor := 2, output_dir := "./subtitles" }

/-- The store state: the tables the queue engine touches. -/
structure DB where
  videos : List Video
  subtitles : List Subtitle
  logs : List LogRow
  settings : Option Setting
deriving DecidableEq

/-- `settings.max_retries if settings else 3` (`queue_manager.py` lines 80-81,
`error_handler.py` lines 130-131). -/
def DB.maxRetries (db : DB) : Int :=
  match db.settings with
  | some s => s.max_retries
  | none => 3

/-- Mutating the single ORM object returned by `query(...).first()`:
update the first list element satisfying `p`, leave the rest alone. -/
def updateFirst (p : α → Bool) (f : α → α) : List α → List α
  | [] => []
  | x :: xs => if p x then f x :: xs else x :: updateFirst p f xs

/-- Elements not matched by `p` survive `updateFirst` unchanged. -/
theorem mem_updateFirst_of_not (p : α → Bool) (f : α → α) (l : List α)
    (x : α) (hx : x ∈ l) (hp : p x = false) : x ∈ updateFirst p f l := by
  induction l with
  | nil => cases hx
  | cons a l ih =>
    simp only [updateFirst]
    rcases List.mem_cons.1 hx with rfl | hmem
    · rw [hp]; exact List.mem_cons_self _ _
    · by_cases h : p a
      · rw [if_pos h]; exact List.mem_cons_of_mem _ hmem
      · rw [if_neg h]; exact List.mem_cons_of_mem _ (ih hmem)

/-- `find?` after `updateFirst` with the same predicate, when the
predicate still holds of the rewritten element. -/
theorem find?_updateFirst_same (p : α → Bool) (f : α → α) (l : List α)
    (x : α) (hfind : l.find? p = some x) (hfx : p (f x) = true) :
    (updateFirst p f l).find? p = some (f x) := by
  induction l with
  | nil => simp at hfind
  | cons a l ih =>
    by_cases h : p a
    · rw [List.find?_cons_of_pos _ h] at hfind
      cases hfind
      simp only [updateFirst, if_pos h]
      exact List.find?_cons_of_pos _ hfx
    · rw [List.find?_cons_of_neg _ h] at hfind
      simp only [updateFirst, if_neg h]
      rw [List.find?_cons_of_neg _ h]
      exact ih hfind

/-! ## Error classifier (`error_handler.py` lines 332-380,
`yt_dlp_helper.py` lines 424-471)

Python's `indicator in error_message.lower()` is case-insensitive
substring containment.  All indicator strings are ASCII, so per-`Char`
lowering (which, like Python's `str.lower` on ASCII, maps only `A`-`Z`)
is faithful on the characters that can match. -/

/-- `listIsPrefix n h` decides whether `n` is a prefix of `h`. -/
def listIsPrefix : List Char → List Char → Bool
  | [], _ => true
  | _ :: _, [] => false
  | a :: asTail, b :: bsTail => a == b && listIsPrefix asTail bsTail

/-- Python's substring test `needle in hay` on lists of characters. -/
def containsSub (hay needle : List Char) : Bool :=
  (List.range (hay.length + 1)).any fun i => listIsPrefix needle (hay.drop i)

/-- `s.lower()` as a character list. -/
def lowerChars (s : String) : List Char :=
  s.data.map Char.toLower

/-- `needle in hay.lower()` for a lowercase ASCII `needle`. -/
def containsLower (hay : String) (needle : String) : Bool :=
  containsSub (lowerChars hay) needle.data

/-- The two error classes (`error_handler.py` classes `TransientError`
and `PermanentError`). -/
inductive ErrClass where
  | transientE
  | permanentE
deriving DecidableEq

/-- `permanent_indicators` of `classify_yt_dlp_error`
(`error_handler.py` lines 345-356). -/
def permanent_indicators : List String :=
  ["private video", "unavailable", "deleted", "no such file",
   "age restricted", "no subtitles available", "no native subtitles",
   "subtitles not available", "invalid url", "unknown video id"]

/-- `transient_indicators` of `classify_yt_dlp_error`
(`error_handler.py` lines 359-369). -/
def transient_indicators : List String :=
  ["timeout", "connection", "network", "temporary", "503", "502", "500",
   "rate limit", "quota exceeded"]

/-- `classify_yt_dlp_error` (`error_handler.py` lines 332-380): permanent
list checked first, then transient list, default transient. -/
def classify_yt_dlp_error (error_message : String) : ErrClass :=
  if permanent_indicators.any (fun ind => containsLower error_message ind) then
    ErrClass.permanentE
  else if transient_indicators.any (fun ind => containsLower error_message ind) then
    ErrClass.transientE
  else
    ErrClass.transientE

/-- `transient_indicators` of `is_transient_error`
(`yt_dlp_helper.py` lines 437-446). -/
def transient_indicators_helper : List String :=
  ["timeout", "connection", "network", "temporary", "server error",
   "http 5", "rate limit", "too many requests"]

/-- `permanent_indicators` of `is_transient_error`
(`yt_dlp_helper.py` lines 449-458). -/
def permanent_indicators_helper : List String :=
  ["not found", "http 404", "forbidden", "http 403", "private video",
   "video unavailable", "removed", "deleted"]

/-- `is_transient_error` (`yt_dlp_helper.py` lines 424-471): permanent
list checked first, then transient list, default transient (`True`). -/
def is_transient_error (error : String) : Bool :=
  if permanent_indicators_helper.any (fun ind => containsLower error ind) then
    false
  else if transient_indicators_helper.any (fun ind => containsLower error ind) then
    true
  else
    true

/-! ## Queue manager (`queue_manager.py`) -/

/-- The row rewrite performed by
`UPDATE videos SET status='processing' WHERE id=:video_id AND status='pending'`
(`queue_manager.py` lines 38-42). -/
def claimUpdateRow (video_id : Nat) (v : Video) : Video :=
  if v.id == video_id && v.status == "pending" then
    { v with status := "processing" }
  else v

/-- The conditional `UPDATE ... WHERE id=:video_id AND status='pending'`
with its `rowcount == 1` check (`queue_manager.py` lines 38-52):
on `rowcount == 1` the update commits, otherwise it is rolled back. -/
def condClaim (db : DB) (video_id : Nat) : Bool × DB :=
  let matched :=
    (db.videos.filter fun v => v.id == video_id && v.status == "pending").length
  if matched == 1 then
    (true, { db with videos := db.videos.map (claimUpdateRow video_id) })
  else
    (false, db)

/-- `claim_next_video` (`queue_manager.py` lines 19-57): select the
pending row with the lowest `id` (`ORDER BY id LIMIT 1`), then run the
conditional update; return the claimed id on success, `none` (with the
store rolled back) otherwise. -/
def claim_next_video (db : DB) : Option Nat × DB :=
  match (db.videos.filter fun v => v.status == "pending").argmin (·.id) with
  | none => (none, db)
  | some video =>
    let r := condClaim db video.id
    if r.1 then (some video.id, r.2) else (none, db)

/-- Python interpolation of an optional string (`None` prints as `"None"`). -/
def optionStr : Option String → String
  | some s => s
  | none => "None"

/-- `release_video` (`queue_manager.py` lines 60-124).  Returns the
function's boolean result paired with the committed store state; on any
`False` return the store is unchanged (nothing was mutated before the
early returns, and nothing is committed). -/
def release_video (now : Nat) (db : DB) (video_id : Nat) (status : String)
    (error_message : Option String) : Bool × DB :=
  match db.videos.find? (fun v => v.id == video_id) with
  | none => (false, db)
  | some video =>
    let max_retries := db.maxRetries
    if status == "failed" then
      if video.attempts + 1 < max_retries then
        let videos' := updateFirst (fun v => v.id == video_id)
          (fun v => { v with attempts := v.attempts + 1, last_error := error_message, status := "pending" }) db.videos
        (true, { db with videos := videos' })
      else
        let videos' := updateFirst (fun v => v.id == video_id)
          (fun v => { v with attempts := v.attempts + 1, last_error := error_message, status := "failed" }) db.videos
        let logs' := db.logs ++
          [⟨some video_id, "ERROR",
            "Video permanently failed: " ++ optionStr error_message, now⟩]
        (true, { db with videos := videos', logs := logs' })
    else if status == "completed" then
      let videos' := updateFirst (fun v => v.id == video_id)
        (fun v => { v with status := "completed", completed_at := some now, last_error := none }) db.videos
      (true, { db with videos := videos' })
    else if status == "pending" then
      let videos' := updateFirst (fun v => v.id == video_id)
        (fun v => { v with status := "pending" }) db.videos
      (true, { db with videos := videos' })
    else
      (false, db)

/-- `release_video` applied as a transient failure `n` times in a row
(the worker fails, releases with `status='failed'`, re-claims, fails
again, ...). -/
def failTimes (now : Nat) (video_id : Nat) (err : Option String) : Nat → DB → DB
  | 0, db => db
  | n + 1, db => failTimes now video_id err n (release_video now db video_id "failed" err).2

/-- The `WHERE` clause of the reconciliation subquery: the row is not
`completed` and joins at least one `subtitles` row. -/
def reconcileQ (db : DB) (v : Video) : Bool :=
  v.status != "completed" && db.subtitles.any (fun s => s.video_id == v.id)

/-- The id set produced by the reconciliation subquery
`SELECT DISTINCT v.id FROM videos v INNER JOIN subtitles s ON
v.id = s.video_id WHERE v.status != 'completed'`. -/
def reconcileIds (db : DB) : List Nat :=
  (db.videos.filter (reconcileQ db)).map (·.id)

/-- `reconcile_video_statuses` (`queue_manager.py` lines 166-211): the
single `UPDATE ... WHERE id IN (<subquery>)` statement, its `rowcount`,
and the INFO log row added when the count is positive. -/
def reconcile_video_statuses (now : Nat) (db : DB) : Nat × DB :=
  let ids := reconcileIds db
  let completed_count := (db.videos.filter fun v => ids.contains v.id).length
  let videos' := db.videos.map fun v =>
    if ids.contains v.id then { v with status := "completed", completed_at := some now }
    else v
  let db' := { db with videos := videos' }
  if completed_count > 0 then
    (completed_count, { db' with logs := db'.logs ++
      [⟨none, "INFO",
        "Reconciliation: Marked " ++ toString completed_count ++ " videos as completed",
        now⟩] })
  else
    (completed_count, db')

/-- `retry_failed_video` (`queue_manager.py` lines 286-330): requires the
row to exist and be `failed`; resets `status='pending'`, `attempts=0`,
`last_error=NULL` and appends an INFO log row. -/
def retry_failed_video (now : Nat) (db : DB) (video_id : Nat) : Bool × DB :=
  match db.videos.find? (fun v => v.id == video_id) with
  | none => (false, db)
  | some video =>
    if video.status != "failed" then (false, db)
    else
      let videos' := updateFirst (fun v => v.id == video_id)
        (fun v => { v with status := "pending", attempts := 0, last_error := none })
        db.videos
      let logs' := db.logs ++ [⟨some video_id, "INFO", "Manual retry initiated", now⟩]
      (true, { db with videos := videos', logs := logs' })

/-! ## Error handler (`error_handler.py`) -/

/-- `message[-4000:]` truncation in `log_to_db` (`error_handler.py`
line 48). -/
def truncateMsg (s : String) : String :=
  if s.data.length > 4000 then ⟨s.data.drop (s.data.length - 4000)⟩ else s

/-- `level.upper()`. -/
def upperStr (s : String) : String :=
  ⟨s.data.map Char.toUpper⟩

/-- The centralized `log` function (`error_handler.py` lines 33-93):
appends one row to the `logs` table (console output not modelled). -/
def dbLog (now : Nat) (db : DB) (video_id : Option Nat) (level : String)
    (message : String) : DB :=
  { db with logs := db.logs ++ [⟨video_id, upperStr level, truncateMsg message, now⟩] }

/-- `schedule_retry` (`error_handler.py` lines 114-147): increments
`attempts`, records `last_error`, requeues as `pending` while
`attempts < max_retries` and otherwise marks `failed`; logs WARN or
ERROR accordingly. -/
def schedule_retry (now : Nat) (db : DB) (video_id : Nat) (error : String) : DB :=
  match db.videos.find? (fun v => v.id == video_id) with
  | none =>
    dbLog now db (some video_id) "ERROR"
      ("Video " ++ toString video_id ++ " not found for retry")
  | some video =>
    let max_retries := db.maxRetries
    if video.attempts + 1 < max_retries then
      let videos' := updateFirst (fun v => v.id == video_id)
        (fun v => { v with attempts := v.attempts + 1, last_error := some error, status := "pending" }) db.videos
      let db' := { db with videos := videos' }
      dbLog now db' (some video_id) "WARN"
        ("Scheduling retry (attempt " ++ toString (video.attempts + 1) ++ "/" ++
          toString max_retries ++ "): " ++ error)
    else
      let videos' := updateFirst (fun v => v.id == video_id)
        (fun v => { v with attempts := v.attempts + 1, last_error := some error, status := "failed" }) db.videos
      let db' := { db with videos := videos' }
      dbLog now db' (some video_id) "ERROR"
        ("Permanently failed after " ++ toString (video.attempts + 1) ++ " attempts: " ++
          error)

/-- `mark_failed` (`error_handler.py` lines 150-174): unconditionally
sets `status='failed'`, records `last_error`, increments `attempts`
once, and logs ERROR. -/
def mark_failed (now : Nat) (db : DB) (video_id : Nat) (error_message : String) : DB :=
  match db.videos.find? (fun v => v.id == video_id) with
  | none =>
    dbLog now db (some video_id) "ERROR"
      ("Video " ++ toString video_id ++ " not found for failure marking")
  | some _ =>
    let videos' := updateFirst (fun v => v.id == video_id)
      (fun v => { v with status := "failed", last_error := some error_message, attempts := v.attempts + 1 }) db.videos
    let db' := { db with videos := videos' }
    dbLog now db' (some video_id) "ERROR"
      ("Marked as permanently failed: " ++ error_message)

/-- `reset_processing_videos` (`error_handler.py` lines 209-235):
`UPDATE videos SET status='pending' WHERE status='processing'`, its
`rowcount`, and the INFO log row. -/
def reset_processing_videos (now : Nat) (db : DB) : Nat × DB :=
  let reset_count := (db.videos.filter fun v => v.status == "processing").length
  let videos' := db.videos.map fun v =>
    if v.status == "processing" then { v with status := "pending" } else v
  let db' := { db with videos := videos' }
  (reset_count, dbLog now db' none "INFO"
    ("Reset " ++ toString reset_count ++ " processing videos to pending on startup"))

/-- `reset_retry_attempts` (`error_handler.py` lines 177-206):
`UPDATE videos SET attempts = 0 WHERE status IN ('pending','processing')`,
its `rowcount`, and the INFO log row. -/
def reset_retry_attempts (now : Nat) (db : DB) : Nat × DB :=
  let reset_count := (db.videos.filter fun v =>
    v.status == "pending" || v.status == "processing").length
  let videos' := db.videos.map fun v =>
    if v.status == "pending" || v.status == "processing" then { v with attempts := 0 }
    else v
  let db' := { db with videos := videos' }
  (reset_count, dbLog now db' none "INFO"
    ("Reset retry attempts for " ++ toString reset_count ++ " videos on startup"))

/-- `startup_recovery` (`error_handler.py` lines 305-328): reset
`processing` rows to `pending`, then reset `attempts` for
`pending | processing` rows, with INFO bookend logs. -/
def startup_recovery (now : Nat) (db : DB) : DB :=
  let db0 := dbLog now db none "INFO" "Starting recovery operations..."
  let r1 := reset_processing_videos now db0
  let r2 := reset_retry_attempts now r1.2
  dbLog now r2.2 none "INFO"
    ("Recovery complete: " ++ toString r1.1 ++ " videos reset to pending, " ++
      toString r2.1 ++ " attempts reset")

/-- Worker exceptions as classified by `handle_worker_exception`
(`error_handler.py` lines 238-269): instances of `TransientError`, of
`PermanentError`, or anything else.  Each carries its `str(exc)`. -/
inductive Exc where
  | transientExc (msg : String)
  | permanentExc (msg : String)
  | otherExc (msg : String)
deriving DecidableEq

/-- `handle_worker_exception` (`error_handler.py` lines 238-269).
The `otherExc` branch logs via `log_exception`, whose appended Python
stack trace is not modelled beyond the leading `Exception: <msg>` text. -/
def handle_worker_exception (now : Nat) (db : DB) (video_id : Nat) (exc : Exc) :
    String × DB :=
  match exc with
  | .transientExc msg =>
    let db1 := dbLog now db (some video_id) "WARN" ("Transient error: " ++ msg)
    ("retry", schedule_retry now db1 video_id msg)
  | .permanentExc msg =>
    let db1 := dbLog now db (some video_id) "ERROR" ("Permanent error: " ++ msg)
    ("failed", mark_failed now db1 video_id msg)
  | .otherExc msg =>
    let db1 := dbLog now db (some video_id) "ERROR" ("Exception: " ++ msg)
    ("retry", schedule_retry now db1 video_id msg)

/-! ## API layer (`api/videos.py`, `api/jobs.py`) -/

/-- A FastAPI endpoint result: a JSON payload or an `HTTPException`
carrying `status_code` and `detail`. -/
inductive ApiResult (α : Type) where
  | ok (value : α)
  | httpError (status_code : Nat) (detail : String)
deriving DecidableEq

/-- The `RetryResponse` payload of `POST /videos/{id}/retry`
(`api/videos.py` lines 43-46). -/
structure RetryResponse where
  message : String
  video_id : Nat
  status : String
deriving DecidableEq

/-- The `retry_video` endpoint (`api/videos.py` lines 99-120). -/
def retry_video (now : Nat) (db : DB) (video_id : Nat) :
    ApiResult RetryResponse × DB :=
  match db.videos.find? (fun v => v.id == video_id) with
  | none => (.httpError 404 "Video not found", db)
  | some video =>
    if video.status != "failed" then
      (.httpError 400
        ("Video is not in failed state (current status: " ++ video.status ++ ")"), db)
    else
      let r := retry_failed_video now db video_id
      if r.1 then
        (.ok ⟨"Video retry initiated successfully", video_id, "pending"⟩, r.2)
      else
        (.httpError 500 "Failed to retry video", r.2)

/-- The `SettingsUpdate` request body of `POST /jobs/settings`
(`api/jobs.py`): every field optional. -/
structure SettingsUpdate where
  max_workers : Option Int
  max_retries : Option Int
  backoff_factor : Option Rat
  output_dir : Option String
deriving DecidableEq

/-- The `update_settings` endpoint (`api/jobs.py` lines 399-441).
The range checks raise `HTTPException(400, ...)`, but the surrounding
`except Exception` block catches that very exception, rolls the session
back and re-raises `HTTPException(500, "Failed to update settings: "
+ str(e))`, where `str(HTTPException)` is `"<code>: <detail>"` — so the
client observes a 500, with the store unchanged. -/
def update_settings (db : DB) (u : SettingsUpdate) : ApiResult Setting × DB :=
  let s0 := db.settings.getD Setting.defaults
  let wErr := match u.max_workers with
    | some w => decide (w < 1 ∨ 20 < w)
    | none => false
  if wErr then
    (.httpError 500 "Failed to update settings: 400: max_workers must be between 1 and 20",
      db)
  else
    let s1 := match u.max_workers with
      | some w => { s0 with max_workers := w }
      | none => s0
    let rErr := match u.max_retries with
      | some r => decide (r < 0 ∨ 10 < r)
      | none => false
    if rErr then
      (.httpError 500 "Failed to update settings: 400: max_retries must be between 0 and 10",
        db)
    else
      let s2 := match u.max_retries with
        | some r => { s1 with max_retries := r }
        | none => s1
      let bErr := match u.backoff_factor with
        | some b => decide (b < 1 ∨ 10 < b)
        | none => false
      if bErr then
        (.httpError 500
          "Failed to update settings: 400: backoff_factor must be between 1.0 and 10.0",
          db)
      else
        let s3 := match u.backoff_factor with
          | some b => { s2 with backoff_factor := b }
          | none => s2
        let s4 := match u.output_dir with
          | some o => { s3 with output_dir := o }
          | none => s3
        (.ok s4, { db with settings := some s4 })

/-! ## Theorems -/

/-- A row rewritten by the claim update never satisfies the claim
predicate `id = :video_id AND status = 'pending'` again. -/
theorem claimUpdateRow_not_pending (video_id : Nat) (v : Video) :
    ((claimUpdateRow video_id v).id == video_id &&
      (claimUpdateRow video_id v).status == "pending") = false := by
  unfold claimUpdateRow
  by_cases h : (v.id == video_id && v.status == "pending") = true
  · rw [if_pos h]
    simp
  · rw [if_neg h]
    simpa using h

/-- After the claim update commits, no row matches the claim predicate. -/
theorem filter_claimed_nil (video_id : Nat) (l : List Video) :
    ((l.map (claimUpdateRow video_id)).filter
      fun v => v.id == video_id && v.status == "pending") = [] := by
  induction l with
  | nil => rfl
  | cons a t ih =>
    rw [List.map_cons, List.filter_cons_of_neg, ih]
    simp [claimUpdateRow_not_pending]

/-- C1.  Single-claim: the conditional update
`UPDATE videos SET status='processing' WHERE id=:video_id AND
status='pending'` with its `rowcount = 1` check is the serialization
point of `claim_next_video`; for any store state, of two such updates
for the same video executed in either serial order (the store
serializes writers), at most one succeeds — so at most one of two
concurrent `claim_next` invocations that attempt video `v` can return
`v.id`, and no two workers hold the same video in `processing`. -/
theorem condClaim_at_most_one (db : DB) (video_id : Nat) :
    ((condClaim db video_id).1 &&
      (condClaim (condClaim db video_id).2 video_id).1) = false := by
  by_cases h :
      (db.videos.filter fun v => v.id == video_id && v.status == "pending").length = 1
  · have h2 : ((({ db with videos := db.videos.map (claimUpdateRow video_id) } : DB).videos.filter
        fun v => v.id == video_id && v.status == "pending").length) = 0 := by
      have hv : ({ db with videos := db.videos.map (claimUpdateRow video_id) } : DB).videos
          = db.videos.map (claimUpdateRow video_id) := rfl
      rw [hv, filter_claimed_nil]
      rfl
    simp [condClaim, h, h2]
  · simp [condClaim, h]

/-- C5 (amended).  `classify_yt_dlp_error` returns `Permanent` exactly
when the lowercased input contains one of its ten permanent markers
(permanent list checked first) and `Transient` in every other case
(matching a transient marker or matching nothing); independently,
`is_transient_error` reports permanent (`false`) exactly when the
lowercased input contains one of its eight permanent markers, and
transient (`true`) otherwise. -/
theorem classify_characterization (s : String) :
    (classify_yt_dlp_error s = ErrClass.permanentE ↔
      permanent_indicators.any (fun ind => containsLower s ind) = true) ∧
    (is_transient_error s = false ↔
      permanent_indicators_helper.any (fun ind => containsLower s ind) = true) := by
  constructor
  · unfold classify_yt_dlp_error
    by_cases h : permanent_indicators.any (fun ind => containsLower s ind) = true
    · simp [h]
    · rw [if_neg h]
      refine ⟨fun hcontra => ?_, fun hcontra => absurd hcontra h⟩
      revert hcontra
      split <;> simp
  · unfold is_transient_error
    by_cases h : permanent_indicators_helper.any (fun ind => containsLower s ind) = true
    · simp [h]
    · rw [if_neg h]
      refine ⟨fun hcontra => ?_, fun hcontra => absurd hcontra h⟩
      revert hcontra
      split <;> simp

/-- C5, counterexample to the claim as stated: `"http 404"` contains
the marker `http 404` yet `classify_yt_dlp_error` returns Transient
(the marker is only in `is_transient_error`'s list), and
`"No subtitles available"` contains `no subtitles available` yet
`is_transient_error` reports transient (that marker is only in
`classify_yt_dlp_error`'s list). -/
theorem classify_counterexample :
    containsLower "http 404" "http 404" = true ∧
    classify_yt_dlp_error "http 404" = ErrClass.transientE ∧
    containsLower "No subtitles available" "no subtitles available" = true ∧
    is_transient_error "No subtitles available" = true := by decide

/-- Store state used to exercise the settings endpoint. -/
def dbC9 : DB := ⟨[], [], [], some ⟨5, 3, 2, "./subtitles"⟩⟩

/-- C9.  Each out-of-range settings update is rejected with the store
unchanged, but the response is HTTP 500, not a 4xx: the endpoint's
blanket `except Exception` catches its own `HTTPException(400, ...)`
and re-raises it as
`HTTPException(500, "Failed to update settings: " + str(e))`. -/
theorem update_settings_wrapped_500 :
    update_settings dbC9 ⟨some 0, none, none, none⟩ =
      (ApiResult.httpError 500
        "Failed to update settings: 400: max_workers must be between 1 and 20", dbC9) ∧
    update_settings dbC9 ⟨none, some 11, none, none⟩ =
      (ApiResult.httpError 500
        "Failed to update settings: 400: max_retries must be between 0 and 10", dbC9) ∧
    update_settings dbC9 ⟨none, none, some (0 : Rat), none⟩ =
      (ApiResult.httpError 500
        "Failed to update settings: 400: backoff_factor must be between 1.0 and 10.0",
        dbC9) := by decide

/-- C10.  `release_video` on an unknown status string, or on a missing
video id, returns `False` and leaves the store untouched: nothing is
mutated before the early `return False` paths and nothing is
committed. -/
theorem release_video_rejects (now : Nat) (db : DB) (video_id : Nat)
    (status : String) (err : Option String)
    (h : (status ≠ "pending" ∧ status ≠ "completed" ∧ status ≠ "failed") ∨
         db.videos.find? (fun w => w.id == video_id) = none) :
    release_video now db video_id status err = (false, db) := by
  rcases h with ⟨h1, h2, h3⟩ | h4
  · unfold release_video
    cases hf : db.videos.find? (fun w => w.id == video_id) with
    | none => rfl
    | some v =>
      have e1 : (status == "failed") = false := by simpa using h3
      have e2 : (status == "completed") = false := by simpa using h2
      have e3 : (status == "pending") = false := by simpa using h1
      simp [e1, e2, e3]
  · unfold release_video
    rw [h4]

/-- Store state used to exercise `release_video` rejection. -/
def dbC10 : DB :=
  ⟨[⟨1, 1, "u1", none, "processing", 0, none, none, 0⟩], [], [], none⟩

/-- Witness for C10 at a concrete input: status `'processing'` is
outside the accepted set, and `release_video` returns `False` with the
store unchanged. -/
theorem release_video_rejects_witness :
    (("processing" ≠ "pending" ∧ "processing" ≠ "completed" ∧ "processing" ≠ "failed") ∨
      dbC10.videos.find? (fun w => w.id == 1) = none) ∧
    release_video 0 dbC10 1 "processing" none = (false, dbC10) :=
  ⟨Or.inl (by decide),
    release_video_rejects 0 dbC10 1 "processing" none (Or.inl (by decide))⟩

/-- The row `mark_failed` writes for an existing row `v`. -/
def markedFailedRow (msg : String) (v : Video) : Video :=
  { v with status := "failed", last_error := some msg, attempts := v.attempts + 1 }

/-- `mark_failed` on an existing row: the row is forced to `failed`
with `last_error` recorded and `attempts` incremented exactly once, an
ERROR log row is appended, and nothing else changes. -/
theorem mark_failed_spec (now : Nat) (db : DB) (video_id : Nat) (msg : String)
    (v : Video) (hfind : db.videos.find? (fun w => w.id == video_id) = some v) :
    (mark_failed now db video_id msg).videos.find? (fun w => w.id == video_id) =
      some (markedFailedRow msg v) ∧
    (mark_failed now db video_id msg).logs =
      db.logs ++
        [⟨some video_id, "ERROR", truncateMsg ("Marked as permanently failed: " ++ msg),
          now⟩] ∧
    (mark_failed now db video_id msg).settings = db.settings ∧
    (mark_failed now db video_id msg).subtitles = db.subtitles := by
  have hp := List.find?_some hfind
  simp only [mark_failed, hfind, dbLog]
  refine ⟨?_, ?_, ?_, ?_⟩
  · exact find?_updateFirst_same _ _ _ v hfind hp
  · trivial
  · trivial
  · trivial

/-- C4.  A worker failure classified `Permanent` is immediately
terminal: `handle_worker_exception` reports `'failed'`, the row's
status becomes `failed` with `last_error` set and `attempts`
incremented exactly once, regardless of how many retries remain, and
ERROR log rows are recorded. -/
theorem handle_permanent_spec (now : Nat) (db : DB) (video_id : Nat) (msg : String)
    (v : Video) (hfind : db.videos.find? (fun w => w.id == video_id) = some v) :
    (handle_worker_exception now db video_id (Exc.permanentExc msg)).1 = "failed" ∧
    (handle_worker_exception now db video_id (Exc.permanentExc msg)).2.videos.find?
        (fun w => w.id == video_id) =
      some (markedFailedRow msg v) ∧
    (handle_worker_exception now db video_id (Exc.permanentExc msg)).2.logs =
      db.logs ++
        [⟨some video_id, "ERROR", truncateMsg ("Permanent error: " ++ msg), now⟩,
         ⟨some video_id, "ERROR", truncateMsg ("Marked as permanently failed: " ++ msg),
          now⟩] := by
  have hfind' : (dbLog now db (some video_id) "ERROR"
      ("Permanent error: " ++ msg)).videos.find? (fun w => w.id == video_id) = some v :=
    hfind
  have hm := mark_failed_spec now
    (dbLog now db (some video_id) "ERROR" ("Permanent error: " ++ msg))
    video_id msg v hfind'
  refine ⟨rfl, hm.1, ?_⟩
  show (mark_failed now
    (dbLog now db (some video_id) "ERROR" ("Permanent error: " ++ msg))
    video_id msg).logs = _
  rw [hm.2.1]
  show (db.logs ++ [⟨some video_id, "ERROR", truncateMsg ("Permanent error: " ++ msg), now⟩])
      ++ [⟨some video_id, "ERROR", truncateMsg ("Marked as permanently failed: " ++ msg),
          now⟩] = _
  rw [List.append_assoc]
  rfl

/-- The video row used by the C4 witness: first attempt, in processing. -/
def v7C4 : Video := ⟨7, 1, "u7", none, "processing", 0, none, none, 0⟩

/-- Store state for the C4 witness. -/
def dbC4 : DB := ⟨[v7C4], [], [], none⟩

/-- Witness for C4: the adapter reports `"Video unavailable"` for video
`7` on its first attempt; the row ends with `attempts = 0 + 1` and
`status = failed`, and ERROR log rows are appended. -/
theorem handle_permanent_spec_witness :
    dbC4.videos.find? (fun w => w.id == 7) = some v7C4 ∧
    ((handle_worker_exception 3 dbC4 7 (Exc.permanentExc "Video unavailable")).1 =
        "failed" ∧
      (handle_worker_exception 3 dbC4 7 (Exc.permanentExc "Video unavailable")).2.videos.find?
          (fun w => w.id == 7) =
        some (markedFailedRow "Video unavailable" v7C4) ∧
      (handle_worker_exception 3 dbC4 7 (Exc.permanentExc "Video unavailable")).2.logs =
        dbC4.logs ++
          [⟨some 7, "ERROR", truncateMsg ("Permanent error: " ++ "Video unavailable"), 3⟩,
           ⟨some 7, "ERROR",
            truncateMsg ("Marked as permanently failed: " ++ "Video unavailable"), 3⟩]) :=
  ⟨by decide, handle_permanent_spec 3 dbC4 7 "Video unavailable" v7C4 (by decide)⟩

/-- The row `retry_failed_video` writes for a `failed` row `v`. -/
def retriedRow (v : Video) : Video :=
  { v with status := "pending", attempts := 0, last_error := none }

/-- C8.  `POST /videos/{id}/retry`: on a video whose status is not
`failed` the endpoint rejects with HTTP 400 and changes no row; on a
`failed` video it reports status `pending` and resets the row to
`status='pending'`, `attempts=0`, `last_error=NULL`, leaving every
other row unchanged. -/
theorem retry_video_spec (now : Nat) (db : DB) (video_id : Nat) (v : Video)
    (hfind : db.videos.find? (fun w => w.id == video_id) = some v) :
    (v.status ≠ "failed" →
      retry_video now db video_id =
        (ApiResult.httpError 400
          ("Video is not in failed state (current status: " ++ v.status ++ ")"), db)) ∧
    (v.status = "failed" →
      (retry_video now db video_id).1 =
        ApiResult.ok ⟨"Video retry initiated successfully", video_id, "pending"⟩ ∧
      (retry_video now db video_id).2.videos.find? (fun w => w.id == video_id) =
        some (retriedRow v) ∧
      (∀ w ∈ db.videos, w.id ≠ video_id → w ∈ (retry_video now db video_id).2.videos) ∧
      (retry_video now db video_id).2.subtitles = db.subtitles ∧
      (retry_video now db video_id).2.settings = db.settings) := by
  have hp := List.find?_some hfind
  constructor
  · intro hne
    have hb : (v.status != "failed") = true := by simpa using hne
    simp [retry_video, hfind, hb]
  · intro heq
    have hb : (v.status != "failed") = false := by simp [heq]
    simp only [retry_video, retry_failed_video, hfind, hb, Bool.false_eq_true,
      if_false, if_true]
    refine ⟨?_, ?_, ?_, ?_, ?_⟩
    · trivial
    · exact find?_updateFirst_same _ _ _ v hfind hp
    · intro w hw hne
      have hpw : (fun x : Video => x.id == video_id) w = false := by simpa using hne
      exact mem_updateFirst_of_not _ _ _ w hw hpw
    · trivial
    · trivial

/-- Video row used by the C8 witness: terminally failed after 2 attempts. -/
def vC8 : Video := ⟨3, 1, "u3", none, "failed", 2, some "boom", none, 0⟩

/-- Store state for the C8 witness. -/
def dbC8 : DB := ⟨[vC8, ⟨4, 1, "u4", none, "pending", 0, none, none, 0⟩], [], [], none⟩

/-- Witness for C8 at a concrete input: retrying failed video `3`
succeeds with status `pending` and resets the row. -/
theorem retry_video_spec_witness :
    dbC8.videos.find? (fun w => w.id == 3) = some vC8 ∧
    ((vC8.status ≠ "failed" →
        retry_video 9 dbC8 3 =
          (ApiResult.httpError 400
            ("Video is not in failed state (current status: " ++ vC8.status ++ ")"),
            dbC8)) ∧
      (vC8.status = "failed" →
        (retry_video 9 dbC8 3).1 =
          ApiResult.ok ⟨"Video retry initiated successfully", 3, "pending"⟩ ∧
        (retry_video 9 dbC8 3).2.videos.find? (fun w => w.id == 3) =
          some (retriedRow vC8) ∧
        (∀ w ∈ dbC8.videos, w.id ≠ 3 → w ∈ (retry_video 9 dbC8 3).2.videos) ∧
        (retry_video 9 dbC8 3).2.subtitles = dbC8.subtitles ∧
        (retry_video 9 dbC8 3).2.settings = dbC8.settings)) :=
  ⟨by decide, retry_video_spec 9 dbC8 3 vC8 (by decide)⟩

/-- C6.  Startup recovery (`reset_processing_videos` followed by
`reset_retry_attempts`): every row that was `processing` ends
`pending` with `attempts = 0`, every row that was `pending` keeps its
status with `attempts = 0`, and every other row — in particular
`failed` and `completed` rows, subtitled or not — is unchanged in every
field; the `subtitles` table and settings are untouched, so a
terminally failed video is not resurrected. -/
theorem startup_recovery_spec (now : Nat) (db : DB) :
    (startup_recovery now db).videos = db.videos.map (fun v =>
      if v.status = "processing" then { v with status := "pending", attempts := 0 }
      else if v.status = "pending" then { v with attempts := 0 }
      else v) ∧
    (startup_recovery now db).subtitles = db.subtitles ∧
    (startup_recovery now db).settings = db.settings := by
  refine ⟨?_, rfl, rfl⟩
  show ((db.videos.map fun v =>
      if v.status == "processing" then { v with status := "pending" } else v).map
    fun v =>
      if v.status == "pending" || v.status == "processing" then { v with attempts := 0 }
      else v) = _
  rw [List.map_map]
  apply List.map_congr_left
  intro v _
  by_cases h1 : v.status = "processing"
  · simp [Function.comp, h1]
  · by_cases h2 : v.status = "pending"
    · simp [Function.comp, h1, h2]
    · simp [Function.comp, h1, h2]

/-- The row produced by `k` consecutive `failed` releases of a row `v`:
`attempts` grows by `k`, `last_error` holds the last error, and the
status is `pending` while `attempts + k < max_retries`, `failed` once
the bound is reached. -/
def iterRow (M : Int) (err : Option String) (k : Int) (v : Video) : Video :=
  ⟨v.id, v.channel_id, v.url, v.title,
    (if v.attempts + k < M then "pending" else "failed"),
    v.attempts + k, err, v.completed_at, v.created_at⟩

/-- One `release_video ... 'failed'` step on an existing row: returns
`True`, increments `attempts`, records `last_error`, requeues as
`pending` when `attempts + 1 < max_retries` and otherwise terminally
fails; settings are untouched. -/
theorem release_failed_step (now : Nat) (db : DB) (video_id : Nat)
    (err : Option String) (v : Video)
    (hfind : db.videos.find? (fun w => w.id == video_id) = some v) :
    (release_video now db video_id "failed" err).1 = true ∧
    (release_video now db video_id "failed" err).2.videos.find?
        (fun w => w.id == video_id) = some (iterRow db.maxRetries err 1 v) ∧
    (release_video now db video_id "failed" err).2.settings = db.settings := by
  have hp := List.find?_some hfind
  by_cases hM : v.attempts + 1 < db.maxRetries
  · have h1 : release_video now db video_id "failed" err = (true, { db with videos := updateFirst (fun w => w.id == video_id) (fun w => { w with attempts := w.attempts + 1, last_error := err, status := "pending" }) db.videos }) := by
      simp only [release_video, hfind]
      simp [hM]
    have hrow : ({ v with attempts := v.attempts + 1, last_error := err, status := "pending" } : Video) =
        iterRow db.maxRetries err 1 v := by
      cases v
      simp [iterRow, hM]
    rw [h1]
    refine ⟨rfl, ?_, rfl⟩
    rw [← hrow]
    exact find?_updateFirst_same _ _ _ v hfind hp
  · have h1 : release_video now db video_id "failed" err = (true, { db with videos := updateFirst (fun w => w.id == video_id) (fun w => { w with attempts := w.attempts + 1, last_error := err, status := "failed" }) db.videos, logs := db.logs ++ [⟨some video_id, "ERROR", "Video permanently failed: " ++ optionStr err, now⟩] }) := by
      simp only [release_video, hfind]
      simp [hM]
    have hrow : ({ v with attempts := v.attempts + 1, last_error := err, status := "failed" } : Video) =
        iterRow db.maxRetries err 1 v := by
      cases v
      simp [iterRow, hM]
    rw [h1]
    refine ⟨rfl, ?_, rfl⟩
    rw [← hrow]
    exact find?_updateFirst_same _ _ _ v hfind hp

/-- Composing iterated failure rows: `j` failures then `k` more. -/
theorem iterRow_iterRow (M : Int) (err : Option String) (j k : Int) (v : Video) :
    iterRow M err k (iterRow M err j v) = iterRow M err (j + k) v := by
  cases v
  simp [iterRow, add_assoc]

/-- `k ≥ 1` consecutive transient failures on a row whose `attempts`
plus `k` stays within `max_retries`: the row ends with `attempts`
increased by `k`, the last error recorded, `pending` while strictly
below the bound and `failed` exactly on reaching it. -/
theorem failTimes_find (now : Nat) (video_id : Nat) (err : Option String) :
    ∀ (k : Nat) (db : DB) (v : Video),
      db.videos.find? (fun w => w.id == video_id) = some v →
      1 ≤ k → v.attempts + (k : Int) ≤ db.maxRetries →
      (failTimes now video_id err k db).videos.find? (fun w => w.id == video_id) =
        some (iterRow db.maxRetries err (k : Int) v) ∧
      (failTimes now video_id err k db).settings = db.settings := by
  intro k
  induction k with
  | zero =>
    intro db v _ h1 _
    exact absurd h1 (by omega)
  | succ k ih =>
    intro db v hfind _ hle
    obtain ⟨hb1, hrow, hset⟩ := release_failed_step now db video_id err v hfind
    by_cases hk : k = 0
    · subst hk
      have e : failTimes now video_id err 1 db =
          (release_video now db video_id "failed" err).2 := rfl
      rw [e]
      refine ⟨?_, hset⟩
      rw [Nat.cast_one]
      exact hrow
    · have hk1 : 1 ≤ k := Nat.one_le_iff_ne_zero.2 hk
      have e : failTimes now video_id err (k + 1) db =
          failTimes now video_id err k (release_video now db video_id "failed" err).2 :=
        rfl
      set db' := (release_video now db video_id "failed" err).2 with hdb'
      have hmax : db'.maxRetries = db.maxRetries := by
        unfold DB.maxRetries
        rw [hset]
      have hfind' : db'.videos.find? (fun w => w.id == video_id) =
          some (iterRow db.maxRetries err 1 v) := hrow
      have hle' : (iterRow db.maxRetries err 1 v).attempts + (k : Int) ≤ db'.maxRetries := by
        rw [hmax]
        show v.attempts + 1 + (k : Int) ≤ db.maxRetries
        push_cast at hle
        omega
      have ihres := ih db' (iterRow db.maxRetries err 1 v) hfind' hk1 hle'
      rw [e]
      refine ⟨?_, ?_⟩
      · rw [ihres.1, hmax, iterRow_iterRow]
        have ecast : (1 : Int) + (k : Int) = ((k + 1 : Nat) : Int) := by
          push_cast
          ring
        rw [ecast]
      · rw [ihres.2]
        exact hset

/-- C3 (amended).  `release_video(v, 'failed', err)` increments
`attempts`, records `last_error = err`, requeues as `pending` while the
incremented `attempts` is still strictly below `max_retries` and
otherwise terminally fails (first two conjuncts); consequently, for a
video starting at `attempts = 0` and `1 ≤ max_retries`, after `k`
transient failures with `k ≤ max_retries` the row is `pending` with
`attempts = k` whenever `k < max_retries` — never terminal earlier —
and terminally `failed` exactly at `k = max_retries` (third conjunct,
by definition of `iterRow`).  For `max_retries = 0` the claim's "at
most `max_retries` failures" bound fails: see the counterexample. -/
theorem release_failed_retry_bound (now : Nat) (db : DB) (video_id : Nat)
    (err : Option String) (v : Video)
    (hfind : db.videos.find? (fun w => w.id == video_id) = some v)
    (hatt : v.attempts = 0) (k : Nat) (hk1 : 1 ≤ k)
    (hkM : (k : Int) ≤ db.maxRetries) :
    (release_video now db video_id "failed" err).1 = true ∧
    (release_video now db video_id "failed" err).2.videos.find?
        (fun w => w.id == video_id) = some (iterRow db.maxRetries err 1 v) ∧
    (failTimes now video_id err k db).videos.find? (fun w => w.id == video_id) =
      some (iterRow db.maxRetries err (k : Int) v) := by
  obtain ⟨h1, h2, _⟩ := release_failed_step now db video_id err v hfind
  have hle : v.attempts + (k : Int) ≤ db.maxRetries := by
    rw [hatt]
    simpa using hkM
  exact ⟨h1, h2, (failTimes_find now video_id err k db v hfind hk1 hle).1⟩

/-- Fresh pending video used by C3's bound witness and counterexample. -/
def vC3 : Video := ⟨1, 1, "u1", none, "pending", 0, none, none, 0⟩

/-- Store with `max_retries = 0` (allowed by the settings endpoint's
`0..10` range) for the C3 counterexample. -/
def dbC3x : DB := ⟨[vC3], [], [], some ⟨5, 0, 2, "./subtitles"⟩⟩

/-- C3, counterexample to the claim as stated: with `max_retries = 0`,
a single transient failure (more than `max_retries` failures) already
leaves the video terminally `failed` with `attempts = 1`, so the video
does not reach `failed` within "at most `max_retries` failed
attempts". -/
theorem release_retry_bound_counterexample :
    dbC3x.maxRetries = 0 ∧
    ((failTimes 0 1 (some "timeout") 1 dbC3x).videos.find? (fun w => w.id == 1)).map
        Video.status = some "failed" ∧
    ((failTimes 0 1 (some "timeout") 1 dbC3x).videos.find? (fun w => w.id == 1)).map
        Video.attempts = some 1 ∧
    ¬((1 : Int) ≤ dbC3x.maxRetries) := by decide

/-- Store with default settings (`max_retries = 3`) for the C3 witness. -/
def dbC3w : DB := ⟨[vC3], [], [], none⟩

/-- Witness for C3 at a concrete input: default `max_retries = 3`,
`k = 3` failures take the fresh video to terminal `failed` with
`attempts = 3`. -/
theorem release_failed_retry_bound_witness :
    dbC3w.videos.find? (fun w => w.id == 1) = some vC3 ∧
    vC3.attempts = 0 ∧ 1 ≤ 3 ∧ ((3 : Nat) : Int) ≤ dbC3w.maxRetries ∧
    ((release_video 2 dbC3w 1 "failed" (some "timeout")).1 = true ∧
      (release_video 2 dbC3w 1 "failed" (some "timeout")).2.videos.find?
          (fun w => w.id == 1) = some (iterRow dbC3w.maxRetries (some "timeout") 1 vC3) ∧
      (failTimes 2 1 (some "timeout") 3 dbC3w).videos.find? (fun w => w.id == 1) =
        some (iterRow dbC3w.maxRetries (some "timeout") ((3 : Nat) : Int) vC3)) :=
  ⟨by decide, rfl, by decide, by decide,
    release_failed_retry_bound 2 dbC3w 1 (some "timeout") vC3 (by decide) rfl 3
      (by decide) (by decide)⟩

/-- With unique ids, the claim predicate matches exactly the chosen
pending row. -/
theorem filter_eq_singleton_of_nodup (l : List Video)
    (huniq : (l.map Video.id).Nodup) (m : Video) (hm : m ∈ l)
    (hpend : m.status = "pending") :
    (l.filter fun v => v.id == m.id && v.status == "pending") = [m] := by
  induction l with
  | nil => cases hm
  | cons a t ih =>
    rw [List.map_cons, List.nodup_cons] at huniq
    obtain ⟨ha, ht⟩ := huniq
    rcases List.mem_cons.1 hm with rfl | hmt
    · rw [List.filter_cons_of_pos (by simp [hpend])]
      have hnil : t.filter (fun v => v.id == m.id && v.status == "pending") = [] := by
        rw [List.filter_eq_nil_iff]
        intro v hv hcontra
        simp only [Bool.and_eq_true, beq_iff_eq] at hcontra
        exact ha (hcontra.1 ▸ List.mem_map_of_mem Video.id hv)
      rw [hnil]
    · have hane : a.id ≠ m.id := by
        intro hcontra
        exact ha (hcontra ▸ List.mem_map_of_mem Video.id hmt)
      rw [List.filter_cons_of_neg (by simp [hane]), ih ht hmt]

/-- With unique ids, the conditional claim of an existing pending row
matches exactly one row and commits. -/
theorem condClaim_succeeds (db : DB) (m : Video)
    (huniq : (db.videos.map Video.id).Nodup) (hm : m ∈ db.videos)
    (hpend : m.status = "pending") :
    condClaim db m.id =
      (true, { db with videos := db.videos.map (claimUpdateRow m.id) }) := by
  unfold condClaim
  rw [filter_eq_singleton_of_nodup db.videos huniq m hm hpend]
  rfl

/-- C2.  Claim contract and FIFO: with unique row ids, when no pending
row exists `claim_next_video` returns `none` with the store unchanged;
when a pending row exists it returns the id of the pending row with
the lowest id and commits exactly the conditional update that sets
that row to `processing` (every other row, and the other tables, are
untouched by `claimUpdateRow`). -/
theorem claim_next_video_spec (db : DB) (huniq : (db.videos.map Video.id).Nodup) :
    ((∀ v ∈ db.videos, v.status ≠ "pending") → claim_next_video db = (none, db)) ∧
    (∀ v ∈ db.videos, v.status = "pending" →
      ∃ m, m ∈ db.videos ∧ m.status = "pending" ∧
        (∀ w ∈ db.videos, w.status = "pending" → m.id ≤ w.id) ∧
        claim_next_video db =
          (some m.id, { db with videos := db.videos.map (claimUpdateRow m.id) }) ∧
        { m with status := "processing" } ∈ (claim_next_video db).2.videos) := by
  constructor
  · intro hnone
    have hfil : db.videos.filter (fun v => v.status == "pending") = [] := by
      rw [List.filter_eq_nil_iff]
      intro v hv
      simpa using hnone v hv
    unfold claim_next_video
    rw [hfil]
    rfl
  · intro v hv hpend
    have hvfil : v ∈ db.videos.filter (fun w => w.status == "pending") :=
      List.mem_filter.2 ⟨hv, by simp [hpend]⟩
    cases harg : (db.videos.filter fun w => w.status == "pending").argmin (·.id) with
    | none =>
      rw [List.argmin_eq_none] at harg
      rw [harg] at hvfil
      cases hvfil
    | some m =>
      have hmmem : m ∈ db.videos.filter (fun w => w.status == "pending") :=
        List.argmin_mem harg
      obtain ⟨hmdb, hmp⟩ := List.mem_filter.1 hmmem
      have hmpend : m.status = "pending" := by simpa using hmp
      have hmin : ∀ w ∈ db.videos, w.status = "pending" → m.id ≤ w.id := by
        intro w hw hwp
        have hwfil : w ∈ db.videos.filter (fun x => x.status == "pending") :=
          List.mem_filter.2 ⟨hw, by simp [hwp]⟩
        exact List.le_of_mem_argmin hwfil harg
      have hcc := condClaim_succeeds db m huniq hmdb hmpend
      have heq : claim_next_video db =
          (some m.id, { db with videos := db.videos.map (claimUpdateRow m.id) }) := by
        unfold claim_next_video
        rw [harg]
        simp only [hcc]
        simp
      refine ⟨m, hmdb, hmpend, hmin, heq, ?_⟩
      rw [heq]
      show { m with status := "processing" } ∈ db.videos.map (claimUpdateRow m.id)
      refine List.mem_map.2 ⟨m, hmdb, ?_⟩
      simp [claimUpdateRow, hmpend]

/-- Pending video with the higher id, for the C2 witness. -/
def vC2a : Video := ⟨2, 1, "u2", none, "pending", 0, none, none, 0⟩

/-- Pending video with the lowest id, for the C2 witness. -/
def vC2b : Video := ⟨1, 1, "u1", none, "pending", 0, none, none, 0⟩

/-- Store for the C2 witness: two pending rows (out of id order) and a
failed one. -/
def dbC2 : DB := ⟨[vC2a, vC2b, ⟨3, 1, "u3", none, "failed", 1, some "x", none, 0⟩],
  [], [], none⟩

/-- Witness for C2 at a concrete store: ids are unique, and the claim
contract holds (the claimed row is id 1, the lowest pending id). -/
theorem claim_next_video_spec_witness :
    (dbC2.videos.map Video.id).Nodup ∧
    (((∀ v ∈ dbC2.videos, v.status ≠ "pending") → claim_next_video dbC2 = (none, dbC2)) ∧
      (∀ v ∈ dbC2.videos, v.status = "pending" →
        ∃ m, m ∈ dbC2.videos ∧ m.status = "pending" ∧
          (∀ w ∈ dbC2.videos, w.status = "pending" → m.id ≤ w.id) ∧
          claim_next_video dbC2 =
            (some m.id, { dbC2 with videos := dbC2.videos.map (claimUpdateRow m.id) }) ∧
          { m with status := "processing" } ∈ (claim_next_video dbC2).2.videos)) :=
  ⟨by decide, claim_next_video_spec dbC2 (by decide)⟩

/-- Component-wise description of one `reconcile_video_statuses` call:
rows whose id is in the subquery's id set are completed (with
`completed_at` stamped), the `subtitles` table and settings are
untouched. -/
theorem reconcile_parts (now : Nat) (db : DB) :
    (reconcile_video_statuses now db).2.videos = db.videos.map (fun v =>
      if (reconcileIds db).contains v.id then
        { v with status := "completed", completed_at := some now }
      else v) ∧
    (reconcile_video_statuses now db).2.subtitles = db.subtitles ∧
    (reconcile_video_statuses now db).2.settings = db.settings := by
  simp only [reconcile_video_statuses]
  refine ⟨?_, ?_, ?_⟩ <;> split <;> rfl

/-- With unique ids, membership of a row's id in the reconciliation
subquery's id set coincides with the row itself satisfying the
subquery's `WHERE` clause. -/
theorem contains_reconcileIds (db : DB) (huniq : (db.videos.map Video.id).Nodup)
    (v : Video) (hv : v ∈ db.videos) :
    (reconcileIds db).contains v.id = reconcileQ db v := by
  cases hq : reconcileQ db v with
  | true =>
    have hfil : v ∈ db.videos.filter (reconcileQ db) := List.mem_filter.2 ⟨hv, hq⟩
    have hmem : v.id ∈ reconcileIds db := List.mem_map_of_mem Video.id hfil
    exact List.elem_iff.2 hmem
  | false =>
    cases hcc : (reconcileIds db).contains v.id with
    | false => rfl
    | true =>
      have hmem : v.id ∈ reconcileIds db := List.elem_iff.1 hcc
      obtain ⟨w, hwfil, hwid⟩ := List.mem_map.1 hmem
      obtain ⟨hwdb, hwq⟩ := List.mem_filter.1 hwfil
      have hwv : w = v := List.inj_on_of_nodup_map huniq hwdb hv hwid
      rw [hwv] at hwq
      rw [hq] at hwq
      exact Bool.noConfusion hwq

/-- C7.  Reconciliation postcondition and idempotence: with unique row
ids, one `reconcile_video_statuses` call completes (stamping
`completed_at`) exactly the videos that satisfy the subquery clause —
at least one Subtitle row and status ≠ `completed` — and changes no
other video row and no subtitle; a second call returns count `0` and
the very same store state. -/
theorem reconcile_spec (now now2 : Nat) (db : DB)
    (huniq : (db.videos.map Video.id).Nodup) :
    (reconcile_video_statuses now db).2.videos = db.videos.map (fun v =>
      if reconcileQ db v then
        { v with status := "completed", completed_at := some now }
      else v) ∧
    (reconcile_video_statuses now db).2.subtitles = db.subtitles ∧
    reconcile_video_statuses now2 (reconcile_video_statuses now db).2 =
      (0, (reconcile_video_statuses now db).2) := by
  have hp := reconcile_parts now db
  have hvid : (reconcile_video_statuses now db).2.videos = db.videos.map (fun v =>
      if reconcileQ db v then
        { v with status := "completed", completed_at := some now }
      else v) := by
    rw [hp.1]
    apply List.map_congr_left
    intro v hv
    rw [contains_reconcileIds db huniq v hv]
  refine ⟨hvid, hp.2.1, ?_⟩
  set R1 := (reconcile_video_statuses now db).2 with hR1
  have hfilnil : R1.videos.filter (reconcileQ R1) = [] := by
    rw [List.filter_eq_nil_iff]
    intro w hw
    rw [hR1, hvid] at hw
    obtain ⟨u, hu, rfl⟩ := List.mem_map.1 hw
    by_cases hq : reconcileQ db u = true
    · rw [if_pos hq]
      unfold reconcileQ
      simp
    · rw [if_neg hq]
      intro hcontra
      apply hq
      unfold reconcileQ at hcontra ⊢
      rw [hp.2.1] at hcontra
      exact hcontra
  have hids2 : reconcileIds R1 = [] := by
    unfold reconcileIds
    rw [hfilnil]
    rfl
  have hcount : (R1.videos.filter fun v => (reconcileIds R1).contains v.id) = [] := by
    rw [hids2, List.filter_eq_nil_iff]
    intro a _ hcontra
    simp at hcontra
  have hmapid : (R1.videos.map fun v =>
      if (reconcileIds R1).contains v.id then
        { v with status := "completed", completed_at := some now2 }
      else v) = R1.videos := by
    rw [hids2]
    simp
  show reconcile_video_statuses now2 R1 = (0, R1)
  simp only [reconcile_video_statuses]
  rw [hcount, hmapid]
  simp

/-- Store for the C7 witness: a subtitled pending row, a subtitled
failed row, an unsubtitled completed row and an unsubtitled pending
row. -/
def dbC7 : DB :=
  ⟨[⟨1, 1, "u1", none, "pending", 0, none, none, 0⟩,
    ⟨2, 1, "u2", none, "completed", 0, none, some 9, 0⟩,
    ⟨3, 1, "u3", none, "failed", 3, some "e", none, 0⟩,
    ⟨4, 1, "u4", none, "pending", 1, none, none, 0⟩],
   [⟨1, 1, "en", "c1"⟩, ⟨2, 3, "en", "c3"⟩], [], none⟩

/-- Witness for C7 at a concrete store with unique ids. -/
theorem reconcile_spec_witness :
    (dbC7.videos.map Video.id).Nodup ∧
    ((reconcile_video_statuses 5 dbC7).2.videos = dbC7.videos.map (fun v =>
        if reconcileQ dbC7 v then
          { v with status := "completed", completed_at := some 5 }
        else v) ∧
      (reconcile_video_statuses 5 dbC7).2.subtitles = dbC7.subtitles ∧
      reconcile_video_statuses 6 (reconcile_video_statuses 5 dbC7).2 =
        (0, (reconcile_video_statuses 5 dbC7).2)) :=
  ⟨by decide, reconcile_spec 5 6 dbC7 (by decide)⟩
